import Mathlib

/-!
Shallow embedding of `docker/db/import_data.py` (Madison IoT Excel-to-TimescaleDB
batch import script).

Spreadsheet cells are modelled through the operations the script applies to them
(`pd.notna`, `pd.to_datetime`, `float`, `int`); a row is an association of column
names to cells, a raising Python operation is an `Except.error`.  Database effects
(connect, SELECT, bulk insert, commit, rollback, close) are recorded as an explicit
event trace, and a small transaction semantics (`applyEvent`) interprets that trace
to reason about what data persists.
-/

namespace MadisonImport

/-- A spreadsheet cell, as seen through the operations the script applies to it.
A text cell carries the outcome of the external library parsers as part of the
datum: `timeVal` is the timestamp `pd.to_datetime` produces for it (`none` when
it raises), `numVal` the number `float`/`int` produce (`none` when they raise). -/
inductive Cell
  | na
  | num (q : Rat)
  | time (x : Rat)
  | txt (timeVal : Option Rat) (numVal : Option Rat)
  deriving DecidableEq

/-- Result of a successful `pd.to_datetime`: NaT (not-a-time, produced for
missing input) or a concrete point in time. -/
inductive PdTimestamp
  | NaT
  | t (x : Rat)
  deriving DecidableEq

/-- `pd.to_datetime(cell)`; `none` models a raised exception.  An empty (NaN)
cell parses without exception to NaT; numbers and datetime values parse to a
point in time; text parses to whatever the pandas parser makes of it. -/
def pd_to_datetime : Cell → Option PdTimestamp
  | Cell.na => some PdTimestamp.NaT
  | Cell.num q => some (PdTimestamp.t q)
  | Cell.time x => some (PdTimestamp.t x)
  | Cell.txt tv _ => tv.map PdTimestamp.t

/-- `parse_timestamp` (import_data.py lines 68-75): try `pd.to_datetime`,
return `None` when it raises. -/
def parse_timestamp (c : Cell) : Option PdTimestamp :=
  match pd_to_datetime c with
  | some ts => some ts
  | none => none

/-- `pd.notna(cell)`. -/
def pd_notna : Cell → Bool
  | Cell.na => false
  | _ => true

/-- Truncation toward zero: the behaviour of Python `int()` on a number
(t-division of the numerator by the positive denominator). -/
def truncRat (q : Rat) : Int :=
  q.num.tdiv q.den

/-- Models the per-field expression `float(row[c]) if pd.notna(row[c]) else None`
applied to the already-fetched cell: an absent cell yields `none`, a number is
cast, and a non-numeric text raises (uncaught in the script). -/
def floatOpt (c : Cell) : Except String (Option Rat) :=
  if pd_notna c then
    match c with
    | Cell.num q => Except.ok (some q)
    | Cell.time _ => Except.error "TypeError: float() argument"
    | Cell.txt _ (some q) => Except.ok (some q)
    | Cell.txt _ none => Except.error "ValueError: could not convert string to float"
    | Cell.na => Except.ok none
  else Except.ok none

/-- Models `int(row[c]) if pd.notna(row[c]) else None` applied to the fetched
cell (integer truncation). -/
def intOpt (c : Cell) : Except String (Option Int) :=
  if pd_notna c then
    match c with
    | Cell.num q => Except.ok (some (truncRat q))
    | Cell.time _ => Except.error "TypeError: int() argument"
    | Cell.txt _ (some q) => Except.ok (some (truncRat q))
    | Cell.txt _ none => Except.error "ValueError: invalid literal for int"
    | Cell.na => Except.ok none
  else Except.ok none

/-- One spreadsheet row: an association of column names to cells. -/
abbrev Row : Type := List (String × Cell)

/-- `row[name]` on a pandas row: a missing column raises `KeyError`. -/
def getCol (row : Row) (name : String) : Except String Cell :=
  match List.lookup name row with
  | some c => Except.ok c
  | none => Except.error ("KeyError: " ++ name)

/-- Fetch a column and apply the guarded `float` cast. -/
def colFloat (row : Row) (name : String) : Except String (Option Rat) := do
  let c ← getCol row name
  floatOpt c

/-- Fetch a column and apply the guarded `int` cast. -/
def colInt (row : Row) (name : String) : Except String (Option Int) := do
  let c ← getCol row name
  intOpt c

def COL_FECHA : String := "Fecha (Europe/Madrid)"
def COL_BATERIA : String := "Batería (mV)"
def COL_PINZA1 : String := "Pinza amperimétrica 1 (A)"
def COL_PINZA2 : String := "Pinza amperimétrica 2 (A)"
def COL_PINZA3 : String := "Pinza amperimétrica 3 (A)"
def COL_PINZA4 : String := "Pinza amperimétrica 4 (A)"
def COL_HUMEDAD : String := "Humedad relativa (%)"
def COL_LUZ : String := "Luz (lux)"
def COL_MOVIMIENTO : String := "Movimiento"
def COL_RUIDO_MEDIA : String := "Ruido [Media] (dB)"
def COL_RUIDO_PICO : String := "Ruido [Pico Máx] (dB)"
def COL_TEMPERATURA : String := "Temperatura (ºC)"
def COL_TENSION : String := "Tensión batería (mV)"

/-- The tuple appended for a current-sensor row (import_data.py lines 97-105). -/
structure CurrentReading where
  time : PdTimestamp
  sensor_id : Nat
  battery_mv : Option Rat
  clamp_1_a : Option Rat
  clamp_2_a : Option Rat
  clamp_3_a : Option Rat
  clamp_4_a : Option Rat
  deriving DecidableEq

/-- The tuple appended for an environmental-sensor row (lines 158-168). -/
structure EnvironmentalReading where
  time : PdTimestamp
  sensor_id : Nat
  humidity_percent : Option Int
  light_lux : Option Int
  movement : Option Int
  noise_avg_db : Option Int
  noise_peak_db : Option Int
  temperature_c : Option Rat
  battery_mv : Option Int
  deriving DecidableEq

/-- The tuple appended for a temperature-sensor row (lines 223-229). -/
structure TemperatureReading where
  time : PdTimestamp
  sensor_id : Nat
  humidity_percent : Option Int
  temperature_c : Option Rat
  battery_mv : Option Int
  deriving DecidableEq

/-- Build the current-sensor tuple: fields are evaluated left to right, a
failing cast (or missing column) raises. -/
def transformCurrent (sensor_id : Nat) (ts : PdTimestamp) (row : Row) :
    Except String CurrentReading := do
  let battery ← colFloat row COL_BATERIA
  let c1 ← colFloat row COL_PINZA1
  let c2 ← colFloat row COL_PINZA2
  let c3 ← colFloat row COL_PINZA3
  let c4 ← colFloat row COL_PINZA4
  Except.ok ⟨ts, sensor_id, battery, c1, c2, c3, c4⟩

/-- Build the environmental-sensor tuple. -/
def transformEnvironmental (sensor_id : Nat) (ts : PdTimestamp) (row : Row) :
    Except String EnvironmentalReading := do
  let hum ← colInt row COL_HUMEDAD
  let lux ← colInt row COL_LUZ
  let mov ← colInt row COL_MOVIMIENTO
  let navg ← colInt row COL_RUIDO_MEDIA
  let npeak ← colInt row COL_RUIDO_PICO
  let temp ← colFloat row COL_TEMPERATURA
  let batt ← colInt row COL_TENSION
  Except.ok ⟨ts, sensor_id, hum, lux, mov, navg, npeak, temp, batt⟩

/-- Build the temperature-sensor tuple. -/
def transformTemperature (sensor_id : Nat) (ts : PdTimestamp) (row : Row) :
    Except String TemperatureReading := do
  let hum ← colInt row COL_HUMEDAD
  let temp ← colFloat row COL_TEMPERATURA
  let batt ← colInt row COL_TENSION
  Except.ok ⟨ts, sensor_id, hum, temp, batt⟩

/-- An observable database effect of the script. -/
inductive DbEvent
  | connect
  | select (table : String)
  | insertBatch (table : String) (n : Nat)
  | commit
  | rollback
  | close
  deriving DecidableEq

/-- The external database as the script sees it: whether connecting succeeds,
the pre-provisioned sensor registry (sensor_code to sensor_id), and whether a
given COUNT query succeeds when executed. -/
structure Db where
  connOk : Bool
  sensors : List (String × Nat)
  countOk : String → Bool

def SENSORS_TABLE : String := "iot.sensors"
def CURRENT_TABLE : String := "iot.current_readings"
def ENVIRONMENTAL_TABLE : String := "iot.environmental_readings"
def TEMPERATURE_TABLE : String := "iot.temperature_readings"

/-- `get_sensor_id` (lines 55-65): look up the sensor code in `iot.sensors`;
no matching row raises `ValueError`. -/
def get_sensor_id (sensors : List (String × Nat)) (sensor_code : String) :
    Except String Nat :=
  match sensors.lookup sensor_code with
  | some sid => Except.ok sid
  | none => Except.error ("Sensor " ++ sensor_code ++ " not found in database")

/-- The per-sheet in-memory state of the batch loop: the event trace so far,
the batches already passed to `execute_batch` (in order), the `data` buffer
and the `skipped` counter. -/
structure SheetState (α : Type) where
  events : List DbEvent
  flushes : List (List α)
  data : List α
  skipped : Nat
  deriving DecidableEq

/-- `skipped += 1; continue`. -/
def bumpSkip {α : Type} (st : SheetState α) : SheetState α :=
  ⟨st.events, st.flushes, st.data, st.skipped + 1⟩

/-- `data.append(tuple)` followed by the in-loop flush check
`if len(data) >= batch_size`: on flush, `execute_batch` and `conn.commit()`
are issued and the buffer is cleared. -/
def pushRow {α : Type} (tbl : String) (batch_size : Nat) (st : SheetState α) (rd : α) :
    SheetState α :=
  let d := st.data ++ [rd]
  if batch_size ≤ d.length then
    ⟨st.events ++ [DbEvent.insertBatch tbl d.length, DbEvent.commit],
     st.flushes ++ [d], [], st.skipped⟩
  else
    ⟨st.events, st.flushes, d, st.skipped⟩

/-- One iteration of the row loop (lines 91-118 and the analogous loops of the
other two importers): fetch the timestamp column (KeyError is fatal), parse it
(parse failure skips the row), build the tuple (cast failure is fatal), append
and maybe flush. -/
def sheetStep {α : Type} (tbl : String) (batch_size : Nat)
    (tr : PdTimestamp → Row → Except String α)
    (st : SheetState α) (row : Row) : Except String (SheetState α) :=
  match getCol row COL_FECHA with
  | Except.error e => Except.error e
  | Except.ok c =>
    match parse_timestamp c with
    | none => Except.ok (bumpSkip st)
    | some ts =>
      match tr ts row with
      | Except.error e => Except.error e
      | Except.ok rd => Except.ok (pushRow tbl batch_size st rd)

/-- Classification of what one row loop iteration does, independent of the
loop state: `none` = a fatal error (missing column or failing cast),
`some none` = the row is skipped (unparseable timestamp),
`some (some rd)` = the row contributes the tuple `rd`. -/
def stepClass {α : Type} (tr : PdTimestamp → Row → Except String α) (row : Row) :
    Option (Option α) :=
  match getCol row COL_FECHA with
  | Except.error _ => none
  | Except.ok c =>
    match parse_timestamp c with
    | none => some none
    | some ts =>
      match tr ts row with
      | Except.error _ => none
      | Except.ok rd => some (some rd)

/-- A row is "good" when it contributes a tuple to the batch. -/
def rowGood {α : Type} (tr : PdTimestamp → Row → Except String α) (row : Row) : Bool :=
  match stepClass tr row with
  | some (some _) => true
  | _ => false

/-- A row is "skipped" when its timestamp cell cannot be parsed. -/
def rowSkip {α : Type} (tr : PdTimestamp → Row → Except String α) (row : Row) : Bool :=
  match stepClass tr row with
  | some none => true
  | _ => false

/-- Number of rows of the sheet that contribute a tuple. -/
def goodCount {α : Type} (tr : PdTimestamp → Row → Except String α) (rows : List Row) : Nat :=
  rows.countP (fun r => rowGood tr r)

/-- Number of rows of the sheet that are skipped. -/
def skipCount {α : Type} (tr : PdTimestamp → Row → Except String α) (rows : List Row) : Nat :=
  rows.countP (fun r => rowSkip tr r)

/-- The `for idx, row in df.iterrows()` loop: runs `sheetStep` over the rows,
stopping at the first uncaught exception (returning the state reached so far
together with the error). -/
def sheetFold {α : Type} (tbl : String) (batch_size : Nat)
    (tr : PdTimestamp → Row → Except String α) :
    List Row → SheetState α → SheetState α × Option String
  | [], st => (st, none)
  | r :: rs, st =>
    match sheetStep tbl batch_size tr st r with
    | Except.ok st' => sheetFold tbl batch_size tr rs st'
    | Except.error e => (st, some e)

/-- A whole sheet import after the sensor id is known: the row loop followed by
the final `if data:` flush of the non-empty remainder (lines 120-130). -/
def runSheet {α : Type} (tbl : String) (batch_size : Nat)
    (tr : PdTimestamp → Row → Except String α)
    (st0 : SheetState α) (rows : List Row) : SheetState α × Option String :=
  match sheetFold tbl batch_size tr rows st0 with
  | (st, some e) => (st, some e)
  | (st, none) =>
    if st.data.isEmpty then (st, none)
    else
      (⟨st.events ++ [DbEvent.insertBatch tbl st.data.length, DbEvent.commit],
        st.flushes ++ [st.data], [], st.skipped⟩, none)

/-- `import_current_sensor` (lines 78-136): resolve the sensor id (the SELECT
on `iot.sensors`; not-found raises and aborts the sheet), then run the batch
loop against `iot.current_readings`. -/
def import_current_sensor (db : Db) (batch_size : Nat) (rows : List Row)
    (sensor_code : String) : SheetState CurrentReading × Option String :=
  let st0 : SheetState CurrentReading := ⟨[DbEvent.select SENSORS_TABLE], [], [], 0⟩
  match get_sensor_id db.sensors sensor_code with
  | Except.error e => (st0, some e)
  | Except.ok sid => runSheet CURRENT_TABLE batch_size (transformCurrent sid) st0 rows

/-- `import_environmental_sensor` (lines 139-201). -/
def import_environmental_sensor (db : Db) (batch_size : Nat) (rows : List Row)
    (sensor_code : String) : SheetState EnvironmentalReading × Option String :=
  let st0 : SheetState EnvironmentalReading := ⟨[DbEvent.select SENSORS_TABLE], [], [], 0⟩
  match get_sensor_id db.sensors sensor_code with
  | Except.error e => (st0, some e)
  | Except.ok sid => runSheet ENVIRONMENTAL_TABLE batch_size (transformEnvironmental sid) st0 rows

/-- `import_temperature_sensor` (lines 204-260). -/
def import_temperature_sensor (db : Db) (batch_size : Nat) (rows : List Row)
    (sensor_code : String) : SheetState TemperatureReading × Option String :=
  let st0 : SheetState TemperatureReading := ⟨[DbEvent.select SENSORS_TABLE], [], [], 0⟩
  match get_sensor_id db.sensors sensor_code with
  | Except.error e => (st0, some e)
  | Except.ok sid => runSheet TEMPERATURE_TABLE batch_size (transformTemperature sid) st0 rows

/-- `SENSOR_MAPPING` (lines 28-40): sheet name to (sensor_code, sensor_type). -/
def SENSOR_MAPPING : List (String × String × String) :=
  [("Sensor c1", "c1", "current"),
   ("Sensor s1", "s1", "environmental"),
   ("Sensor s2", "s2", "environmental"),
   ("Sensor s3", "s3", "environmental"),
   ("Sensor s4", "s4", "environmental"),
   ("Sensor s5", "s5", "environmental"),
   ("Sensor t1", "t1", "temperature"),
   ("Sensor t2", "t2", "temperature"),
   ("Sensor t3", "t3", "temperature"),
   ("Sensor t4", "t4", "temperature"),
   ("Sensor t5", "t5", "temperature")]

/-- Processing of one sheet inside the driver loop (lines 282-301): an
unrecognized sheet name is skipped with a warning (no events, zero rows,
no error); a recognized one is counted (`total_rows += len(df)`) and handed
to the importer registered for its sensor type.  Returns (events, rows
counted, error). -/
def processSheet (db : Db) (batch_size : Nat) (sheet_name : String) (rows : List Row) :
    List DbEvent × Nat × Option String :=
  match SENSOR_MAPPING.lookup sheet_name with
  | none => ([], 0, none)
  | some info =>
    if info.2 = "current" then
      let r := import_current_sensor db batch_size rows info.1
      (r.1.events, rows.length, r.2)
    else if info.2 = "environmental" then
      let r := import_environmental_sensor db batch_size rows info.1
      (r.1.events, rows.length, r.2)
    else if info.2 = "temperature" then
      let r := import_temperature_sensor db batch_size rows info.1
      (r.1.events, rows.length, r.2)
    else ([], rows.length, none)

/-- The driver's sheet loop: process sheets in order, stopping at the first
uncaught error. -/
def importSheets (db : Db) (batch_size : Nat) :
    List (String × List Row) → List DbEvent × Nat × Option String
  | [] => ([], 0, none)
  | sheet :: rest =>
    let p := processSheet db batch_size sheet.1 sheet.2
    match p.2.2 with
    | some e => (p.1, p.2.1, some e)
    | none =>
      let q := importSheets db batch_size rest
      (p.1 ++ q.1, p.2.1 + q.2.1, q.2.2)

/-- `import_all_data` (lines 263-323): missing file exits 1 before anything
else; a failed connection exits 1; an error while processing a sheet is caught,
the transaction rolled back, `sys.exit(1)` raised, and the `finally` block
closes the connection; on success the connection is closed and the function
returns (exit code `none` means the function returned normally). -/
def import_all_data (fileExists : Bool) (wb : List (String × List Row)) (db : Db)
    (batch_size : Nat) : List DbEvent × Option Nat :=
  if fileExists then
    if db.connOk then
      let r := importSheets db batch_size wb
      match r.2.2 with
      | some _ => (DbEvent.connect :: r.1 ++ [DbEvent.rollback, DbEvent.close], some 1)
      | none => (DbEvent.connect :: r.1 ++ [DbEvent.close], none)
    else ([], some 1)
  else ([], some 1)

/-- The four tables counted by `verify_import` (lines 326-357), in execution
order. -/
def COUNT_TABLES : List String :=
  [SENSORS_TABLE, CURRENT_TABLE, ENVIRONMENTAL_TABLE, TEMPERATURE_TABLE]

/-- Run the COUNT queries in order; a failing `cursor.execute` raises, ending
the run (returns the events of the queries that did execute and whether all
succeeded). -/
def runCounts (db : Db) : List String → List DbEvent × Bool
  | [] => ([], true)
  | t :: ts =>
    if db.countOk t then
      let r := runCounts db ts
      (DbEvent.select t :: r.1, r.2)
    else ([], false)

/-- `verify_import`: the four read-only COUNT queries. -/
def verify_import (db : Db) : List DbEvent × Bool :=
  runCounts db COUNT_TABLES

/-- The parsed command line. -/
structure Args where
  verify_only : Bool
  batch_size : Nat

/-- The `__main__` block (lines 360-378).  With `--verify-only`: connect
(failure exits 1), verify (an uncaught query error exits 1 WITHOUT closing —
there is no try/finally here), close, exit 0.  Otherwise: `import_all_data`
(which may exit), then a second connection is opened for verification with the
same unguarded close.  Returns the full event trace and the process exit
status. -/
def main_run (args : Args) (fileExists : Bool) (wb : List (String × List Row))
    (db : Db) : List DbEvent × Nat :=
  if args.verify_only then
    if db.connOk then
      let v := verify_import db
      if v.2 then (DbEvent.connect :: v.1 ++ [DbEvent.close], 0)
      else (DbEvent.connect :: v.1, 1)
    else ([], 1)
  else
    let r := import_all_data fileExists wb db args.batch_size
    match r.2 with
    | some c => (r.1, c)
    | none =>
      if db.connOk then
        let v := verify_import db
        if v.2 then (r.1 ++ DbEvent.connect :: v.1 ++ [DbEvent.close], 0)
        else (r.1 ++ DbEvent.connect :: v.1, 1)
      else (r.1, 1)

/-- Transaction-level interpretation of an event trace: `committed` data
survives the run, `pending` is the current open transaction. -/
structure TxnState where
  committed : List DbEvent
  pending : List DbEvent
  deriving DecidableEq

/-- Semantics of one event: inserts accumulate in the open transaction,
`commit` makes them durable, `rollback` discards exactly the open
transaction; reads, connects and closes change nothing. -/
def applyEvent (s : TxnState) : DbEvent → TxnState
  | DbEvent.insertBatch tbl n => ⟨s.committed, s.pending ++ [DbEvent.insertBatch tbl n]⟩
  | DbEvent.commit => ⟨s.committed ++ s.pending, []⟩
  | DbEvent.rollback => ⟨s.committed, []⟩
  | _ => s

/-- Interpretation of a whole trace. -/
def applyTrace (s : TxnState) (es : List DbEvent) : TxnState :=
  es.foldl applyEvent s

/-- Is this event a bulk insert (the only table write the script issues)? -/
def isInsert : DbEvent → Bool
  | DbEvent.insertBatch _ _ => true
  | _ => false

/-- Is this event a read-only SELECT? -/
def isSelect : DbEvent → Bool
  | DbEvent.select _ => true
  | _ => false

/-- Helper for stating that every bulk insert of a trace is immediately
followed by a commit; the flag records whether a commit is due right now. -/
def ftcAux : Bool → List DbEvent → Bool
  | true, DbEvent.commit :: rest => ftcAux false rest
  | true, _ => false
  | false, [] => true
  | false, DbEvent.insertBatch _ _ :: rest => ftcAux true rest
  | false, _ :: rest => ftcAux false rest

/-- Every `insertBatch` of the trace is immediately followed by a `commit`. -/
def flushThenCommit (es : List DbEvent) : Bool :=
  ftcAux false es

/-- All rows handed to the database or still buffered, in order. -/
def allRows {α : Type} (st : SheetState α) : List α :=
  st.flushes.flatten ++ st.data

/-- A well-formed temperature-sheet row (all cells numeric, timestamp a
datetime value). -/
def T1_ROW : Row :=
  [(COL_FECHA, Cell.time 0), (COL_HUMEDAD, Cell.num 50),
   (COL_TEMPERATURA, Cell.num 21), (COL_TENSION, Cell.num 3600)]

/-- A temperature-sheet row whose timestamp cell is unparseable text. -/
def BAD_TS_ROW : Row :=
  [(COL_FECHA, Cell.txt none none), (COL_HUMEDAD, Cell.num 50),
   (COL_TEMPERATURA, Cell.num 21), (COL_TENSION, Cell.num 3600)]

/-- A temperature-sheet row whose timestamp cell is empty (NaN). -/
def NA_TS_ROW : Row :=
  [(COL_FECHA, Cell.na), (COL_HUMEDAD, Cell.num 50),
   (COL_TEMPERATURA, Cell.num 21), (COL_TENSION, Cell.num 3600)]

/-- A temperature-sheet row whose humidity cell holds non-numeric text, so
the `int` cast raises. -/
def badCastRow (tv : Option Rat) : Row :=
  [(COL_FECHA, Cell.time 0), (COL_HUMEDAD, Cell.txt tv none),
   (COL_TEMPERATURA, Cell.num 21), (COL_TENSION, Cell.num 3600)]

/-- A database with sensor `t1` registered and all COUNT queries succeeding. -/
def T1_DB : Db := ⟨true, [("t1", 7)], fun _ => true⟩

/-! ### Characterization of one loop iteration -/

theorem sheetStep_of_skip {α : Type} (tbl : String) (B : Nat)
    (tr : PdTimestamp → Row → Except String α) (st : SheetState α) (r : Row)
    (h : stepClass tr r = some none) :
    sheetStep tbl B tr st r = Except.ok (bumpSkip st) := by
  unfold stepClass at h
  unfold sheetStep
  cases hg : getCol r COL_FECHA with
  | error e => simp [hg] at h
  | ok c =>
    simp only [hg] at h ⊢
    cases hp : parse_timestamp c with
    | none => simp [hp]
    | some ts =>
      simp only [hp] at h
      cases htr : tr ts r <;> simp [htr] at h

theorem sheetStep_of_good {α : Type} (tbl : String) (B : Nat)
    (tr : PdTimestamp → Row → Except String α) (st : SheetState α) (r : Row) (rd : α)
    (h : stepClass tr r = some (some rd)) :
    sheetStep tbl B tr st r = Except.ok (pushRow tbl B st rd) := by
  unfold stepClass at h
  unfold sheetStep
  cases hg : getCol r COL_FECHA with
  | error e => simp [hg] at h
  | ok c =>
    simp only [hg] at h ⊢
    cases hp : parse_timestamp c with
    | none => simp [hp] at h
    | some ts =>
      simp only [hp] at h ⊢
      cases htr : tr ts r with
      | error e => simp [htr] at h
      | ok rd' =>
        simp only [htr] at h ⊢
        simp only [Option.some.injEq] at h
        rw [h]

theorem sheetStep_of_fatal {α : Type} (tbl : String) (B : Nat)
    (tr : PdTimestamp → Row → Except String α) (st : SheetState α) (r : Row)
    (h : stepClass tr r = none) :
    ∃ e, sheetStep tbl B tr st r = Except.error e := by
  unfold stepClass at h
  unfold sheetStep
  cases hg : getCol r COL_FECHA with
  | error e => exact ⟨e, by simp [hg]⟩
  | ok c =>
    simp only [hg] at h ⊢
    cases hp : parse_timestamp c with
    | none => simp [hp] at h
    | some ts =>
      simp only [hp] at h ⊢
      cases htr : tr ts r with
      | error e => exact ⟨e, by simp [htr]⟩
      | ok rd => simp [htr] at h

/-! ### Equations and composition of the row loop -/

theorem sheetFold_nil {α : Type} (tbl : String) (B : Nat)
    (tr : PdTimestamp → Row → Except String α) (st : SheetState α) :
    sheetFold tbl B tr [] st = (st, none) := rfl

theorem sheetFold_cons {α : Type} (tbl : String) (B : Nat)
    (tr : PdTimestamp → Row → Except String α) (st : SheetState α) (r : Row) (rs : List Row) :
    sheetFold tbl B tr (r :: rs) st =
      match sheetStep tbl B tr st r with
      | Except.ok st' => sheetFold tbl B tr rs st'
      | Except.error e => (st, some e) := rfl

theorem sheetFold_append {α : Type} (tbl : String) (B : Nat)
    (tr : PdTimestamp → Row → Except String α) (xs ys : List Row) (st : SheetState α) :
    sheetFold tbl B tr (xs ++ ys) st =
      match sheetFold tbl B tr xs st with
      | (st1, none) => sheetFold tbl B tr ys st1
      | (st1, some e) => (st1, some e) := by
  induction xs generalizing st with
  | nil => rfl
  | cons r rs ih =>
    simp only [List.cons_append, sheetFold]
    cases sheetStep tbl B tr st r with
    | ok st' => exact ih st'
    | error e => rfl

/-! ### The skip counter does not influence the data path -/

theorem sheetStep_bumpSkip {α : Type} (tbl : String) (B : Nat)
    (tr : PdTimestamp → Row → Except String α) (st : SheetState α) (r : Row) :
    sheetStep tbl B tr (bumpSkip st) r = Except.map bumpSkip (sheetStep tbl B tr st r) := by
  unfold sheetStep
  cases hg : getCol r COL_FECHA with
  | error e => rfl
  | ok c =>
    simp only []
    cases hp : parse_timestamp c with
    | none => rfl
    | some ts =>
      simp only []
      cases htr : tr ts r with
      | error e => rfl
      | ok rd =>
        show Except.ok (pushRow tbl B (bumpSkip st) rd)
          = Except.map bumpSkip (Except.ok (pushRow tbl B st rd))
        simp only [Except.map, pushRow, bumpSkip]
        split <;> rfl

theorem sheetFold_bumpSkip {α : Type} (tbl : String) (B : Nat)
    (tr : PdTimestamp → Row → Except String α) (rows : List Row) (st : SheetState α) :
    sheetFold tbl B tr rows (bumpSkip st)
      = (bumpSkip (sheetFold tbl B tr rows st).1, (sheetFold tbl B tr rows st).2) := by
  induction rows generalizing st with
  | nil => rfl
  | cons r rs ih =>
    simp only [sheetFold, sheetStep_bumpSkip]
    cases h : sheetStep tbl B tr st r with
    | error e => rfl
    | ok st' => simpa [Except.map] using ih st'

/-! ### The buffer bound invariant -/

theorem sheetStep_inv {α : Type} (tbl : String) (B : Nat)
    (tr : PdTimestamp → Row → Except String α) (hB : 1 ≤ B)
    (st st' : SheetState α) (r : Row)
    (h : sheetStep tbl B tr st r = Except.ok st')
    (hd : st.data.length < B) (hf : ∀ l ∈ st.flushes, l.length = B) :
    st'.data.length < B ∧ ∀ l ∈ st'.flushes, l.length = B := by
  unfold sheetStep at h
  cases hg : getCol r COL_FECHA with
  | error e => simp [hg] at h
  | ok c =>
    simp only [hg] at h
    cases hp : parse_timestamp c with
    | none =>
      simp only [hp, Except.ok.injEq] at h
      subst h
      exact ⟨hd, hf⟩
    | some ts =>
      simp only [hp] at h
      cases htr : tr ts r with
      | error e => simp [htr] at h
      | ok rd =>
        simp only [htr, Except.ok.injEq] at h
        subst h
        unfold pushRow
        by_cases hle : B ≤ (st.data ++ [rd]).length
        · simp only [hle, if_pos]
          refine ⟨by simpa using hB, ?_⟩
          intro l hl
          rcases List.mem_append.mp hl with hl | hl
          · exact hf l hl
          · have hlen : (st.data ++ [rd]).length = B := by
              simp only [List.length_append, List.length_singleton] at hle ⊢
              omega
            simp only [List.mem_singleton] at hl
            rw [hl, hlen]
        · simp only [hle, if_neg, not_false_eq_true]
          refine ⟨?_, hf⟩
          simp only [List.length_append, List.length_singleton] at hle ⊢
          omega

theorem sheetFold_inv {α : Type} (tbl : String) (B : Nat)
    (tr : PdTimestamp → Row → Except String α) (hB : 1 ≤ B) (rows : List Row) :
    ∀ st : SheetState α, st.data.length < B → (∀ l ∈ st.flushes, l.length = B) →
      (sheetFold tbl B tr rows st).1.data.length < B
        ∧ ∀ l ∈ (sheetFold tbl B tr rows st).1.flushes, l.length = B := by
  induction rows with
  | nil => intro st hd hf; exact ⟨hd, hf⟩
  | cons r rs ih =>
    intro st hd hf
    rw [sheetFold_cons]
    cases h : sheetStep tbl B tr st r with
    | error e => exact ⟨hd, hf⟩
    | ok st' =>
      obtain ⟨hd', hf'⟩ := sheetStep_inv tbl B tr hB st st' r h hd hf
      exact ih st' hd' hf'

/-! ### The batching schedule -/

theorem div_count_eq (B P : Nat) (hB : 1 ≤ B) :
    P / B + (if P % B = 0 then 0 else 1) = (P + B - 1) / B := by
  have hB0 : 0 < B := hB
  have hmod := Nat.div_add_mod P B
  have hrB : P % B < B := Nat.mod_lt _ hB0
  by_cases h0 : P % B = 0
  · have h1 : P + B - 1 = B * (P / B) + (B - 1) := by omega
    rw [if_pos h0, h1, Nat.mul_add_div hB0,
      Nat.div_eq_of_lt (show B - 1 < B by omega)]
  · have h1 : P + B - 1 = B * (P / B) + ((P % B - 1) + B) := by omega
    rw [if_neg h0, h1, Nat.mul_add_div hB0, Nat.add_div_right _ hB0,
      Nat.div_eq_of_lt (show P % B - 1 < B by omega)]

theorem sheetFold_spec {α : Type} (tbl : String) (B : Nat)
    (tr : PdTimestamp → Row → Except String α) (hB : 1 ≤ B) :
    ∀ (rows : List Row) (st : SheetState α), st.data.length < B →
      (∀ r ∈ rows, stepClass tr r ≠ none) →
      ∃ st', sheetFold tbl B tr rows st = (st', none)
        ∧ st'.skipped = st.skipped + skipCount tr rows
        ∧ st'.flushes.map List.length
            = st.flushes.map List.length
              ++ List.replicate ((st.data.length + goodCount tr rows) / B) B
        ∧ st'.data.length = (st.data.length + goodCount tr rows) % B := by
  intro rows
  induction rows with
  | nil =>
    intro st hd _
    refine ⟨st, rfl, ?_, ?_, ?_⟩
    · simp [skipCount]
    · simp [goodCount, Nat.div_eq_of_lt hd]
    · simp [goodCount, Nat.mod_eq_of_lt hd]
  | cons r rs ih =>
    intro st hd hok
    have hr := hok r (List.mem_cons_self r rs)
    have hrs : ∀ x ∈ rs, stepClass tr x ≠ none :=
      fun x hx => hok x (List.mem_cons_of_mem r hx)
    rw [sheetFold_cons]
    cases hcl : stepClass tr r with
    | none => exact absurd hcl hr
    | some o =>
      cases o with
      | none =>
        rw [sheetStep_of_skip tbl B tr st r hcl]
        obtain ⟨st', h1, h2, h3, h4⟩ := ih (bumpSkip st) (by simpa [bumpSkip] using hd) hrs
        refine ⟨st', h1, ?_, ?_, ?_⟩
        · rw [h2]
          simp only [bumpSkip, skipCount, List.countP_cons, rowSkip, hcl, if_pos]
          omega
        · rw [h3]
          simp [bumpSkip, goodCount, List.countP_cons, rowGood, hcl]
        · rw [h4]
          simp [bumpSkip, goodCount, List.countP_cons, rowGood, hcl]
      | some rd =>
        rw [sheetStep_of_good tbl B tr st r rd hcl]
        have hgood : goodCount tr (r :: rs) = goodCount tr rs + 1 := by
          simp [goodCount, List.countP_cons, rowGood, hcl]
        have hskip : skipCount tr (r :: rs) = skipCount tr rs := by
          simp [skipCount, List.countP_cons, rowSkip, hcl]
        unfold pushRow
        by_cases hfl : B ≤ (st.data ++ [rd]).length
        · -- the append reaches the batch size: flush and clear
          rw [if_pos hfl]
          have hlenB : (st.data ++ [rd]).length = B := by
            simp only [List.length_append, List.length_singleton] at hfl ⊢
            omega
          obtain ⟨st', h1, h2, h3, h4⟩ :=
            ih ⟨st.events ++ [DbEvent.insertBatch tbl (st.data ++ [rd]).length, DbEvent.commit],
                st.flushes ++ [st.data ++ [rd]], [], st.skipped⟩ (by simpa using hB) hrs
          refine ⟨st', h1, ?_, ?_, ?_⟩
          · rw [h2, hskip]
          · rw [h3, hgood]
            simp only [List.map_append, List.map_cons, List.map_nil, List.length_nil,
              Nat.zero_add, hlenB]
            have harith : st.data.length + (goodCount tr rs + 1) = B + goodCount tr rs := by
              simp only [List.length_append, List.length_singleton] at hlenB
              omega
            rw [harith, Nat.add_div_left _ hB, List.replicate_succ, List.append_assoc]
            rfl
          · rw [h4, hgood]
            have harith : st.data.length + (goodCount tr rs + 1) = B + goodCount tr rs := by
              simp only [List.length_append, List.length_singleton] at hlenB
              omega
            simp only [List.length_nil, Nat.zero_add, harith, Nat.add_mod_left]
        · -- no flush: the tuple stays in the buffer
          rw [if_neg hfl]
          have hlt : (st.data ++ [rd]).length < B := by omega
          obtain ⟨st', h1, h2, h3, h4⟩ :=
            ih ⟨st.events, st.flushes, st.data ++ [rd], st.skipped⟩ hlt hrs
          have harith : (st.data ++ [rd]).length + goodCount tr rs
              = st.data.length + goodCount tr (r :: rs) := by
            simp only [List.length_append, List.length_singleton, hgood]
            omega
          refine ⟨st', h1, ?_, ?_, ?_⟩
          · rw [h2, hskip]
          · rw [h3]
            simp only [harith]
          · rw [h4]
            simp only [harith]

theorem runSheet_eq_of_fold {α : Type} (tbl : String) (B : Nat)
    (tr : PdTimestamp → Row → Except String α) (st0 : SheetState α) (rows : List Row)
    (st1 : SheetState α) (h : sheetFold tbl B tr rows st0 = (st1, none)) :
    runSheet tbl B tr st0 rows =
      if st1.data.isEmpty then (st1, none)
      else (⟨st1.events ++ [DbEvent.insertBatch tbl st1.data.length, DbEvent.commit],
            st1.flushes ++ [st1.data], [], st1.skipped⟩, none) := by
  unfold runSheet
  rw [h]

theorem runSheet_schedule {α : Type} (tbl : String) (B : Nat)
    (tr : PdTimestamp → Row → Except String α) (st0 : SheetState α) (rows : List Row)
    (hB : 1 ≤ B) (h0d : st0.data = []) (h0f : st0.flushes = [])
    (hok : ∀ r ∈ rows, stepClass tr r ≠ none) :
    ∃ st, runSheet tbl B tr st0 rows = (st, none)
      ∧ st.flushes.map List.length
          = List.replicate (goodCount tr rows / B) B
            ++ (if goodCount tr rows % B = 0 then [] else [goodCount tr rows % B])
      ∧ st.flushes.length = (goodCount tr rows + B - 1) / B
      ∧ st.skipped = st0.skipped + skipCount tr rows
      ∧ st.data = [] := by
  obtain ⟨st1, h1, h2, h3, h4⟩ :=
    sheetFold_spec tbl B tr hB rows st0 (by rw [h0d]; simpa using hB) hok
  rw [h0f, h0d] at h3
  rw [h0d] at h4
  simp only [List.map_nil, List.nil_append, List.length_nil, Nat.zero_add] at h3 h4
  have hflen : st1.flushes.length = goodCount tr rows / B := by
    have := congrArg List.length h3
    simpa using this
  rw [runSheet_eq_of_fold tbl B tr st0 rows st1 h1]
  by_cases hmod : goodCount tr rows % B = 0
  · have hdnil : st1.data = [] := by
      rw [← List.length_eq_zero, h4, hmod]
    rw [hdnil]
    simp only [List.isEmpty_nil, if_true]
    refine ⟨st1, rfl, ?_, ?_, h2, hdnil⟩
    · rw [h3, if_pos hmod, List.append_nil]
    · rw [hflen, ← div_count_eq B _ hB, if_pos hmod]
      rfl
  · have hdne : st1.data ≠ [] := by
      intro hc
      rw [hc] at h4
      simp only [List.length_nil] at h4
      exact hmod h4.symm
    have hemp : st1.data.isEmpty = false := by
      cases hsd : st1.data with
      | nil => exact absurd hsd hdne
      | cons a l => rfl
    rw [hemp]
    simp only [Bool.false_eq_true, if_false]
    refine ⟨_, rfl, ?_, ?_, h2, rfl⟩
    · simp only [List.map_append, List.map_cons, List.map_nil]
      rw [h3, h4, if_neg hmod]
    · simp only [List.length_append, List.length_singleton]
      rw [hflen, ← div_count_eq B _ hB, if_neg hmod]

/-! ### Event traces: every flush is immediately committed -/

theorem runSheet_eq_of_fold_err {α : Type} (tbl : String) (B : Nat)
    (tr : PdTimestamp → Row → Except String α) (st0 : SheetState α) (rows : List Row)
    (st1 : SheetState α) (e : String) (h : sheetFold tbl B tr rows st0 = (st1, some e)) :
    runSheet tbl B tr st0 rows = (st1, some e) := by
  unfold runSheet
  rw [h]

theorem sheetStep_events {α : Type} (tbl : String) (B : Nat)
    (tr : PdTimestamp → Row → Except String α) (st st' : SheetState α) (r : Row)
    (h : sheetStep tbl B tr st r = Except.ok st') :
    st'.events = st.events
      ∨ ∃ n, st'.events = st.events ++ [DbEvent.insertBatch tbl n, DbEvent.commit] := by
  unfold sheetStep at h
  cases hg : getCol r COL_FECHA with
  | error e => simp [hg] at h
  | ok c =>
    simp only [hg] at h
    cases hp : parse_timestamp c with
    | none =>
      simp only [hp, Except.ok.injEq] at h
      subst h
      exact Or.inl rfl
    | some ts =>
      simp only [hp] at h
      cases htr : tr ts r with
      | error e => simp [htr] at h
      | ok rd =>
        simp only [htr, Except.ok.injEq] at h
        subst h
        unfold pushRow
        by_cases hfl : B ≤ (st.data ++ [rd]).length
        · rw [if_pos hfl]
          exact Or.inr ⟨_, rfl⟩
        · rw [if_neg hfl]
          exact Or.inl rfl

theorem ftcAux_append : ∀ (xs : List DbEvent) (b : Bool), ftcAux b xs = true →
    ∀ ys : List DbEvent, ftcAux false ys = true → ftcAux b (xs ++ ys) = true := by
  intro xs
  induction xs with
  | nil =>
    intro b hb ys hys
    cases b with
    | false => simpa using hys
    | true => simp [ftcAux] at hb
  | cons e es ih =>
    intro b hb ys hys
    cases b with
    | true =>
      cases e with
      | commit =>
        have hb' : ftcAux false es = true := hb
        exact ih false hb' ys hys
      | connect => simp [ftcAux] at hb
      | select t => simp [ftcAux] at hb
      | insertBatch t n => simp [ftcAux] at hb
      | rollback => simp [ftcAux] at hb
      | close => simp [ftcAux] at hb
    | false =>
      cases e with
      | insertBatch t n =>
        have hb' : ftcAux true es = true := hb
        exact ih true hb' ys hys
      | connect => exact ih false hb ys hys
      | select t => exact ih false hb ys hys
      | commit => exact ih false hb ys hys
      | rollback => exact ih false hb ys hys
      | close => exact ih false hb ys hys

theorem sheetFold_ftc {α : Type} (tbl : String) (B : Nat)
    (tr : PdTimestamp → Row → Except String α) (rows : List Row) :
    ∀ st : SheetState α, flushThenCommit st.events = true →
      flushThenCommit (sheetFold tbl B tr rows st).1.events = true := by
  induction rows with
  | nil => intro st h; exact h
  | cons r rs ih =>
    intro st h
    rw [sheetFold_cons]
    cases hs : sheetStep tbl B tr st r with
    | error e => exact h
    | ok st' =>
      apply ih
      rcases sheetStep_events tbl B tr st st' r hs with he | ⟨n, he⟩
      · rw [he]; exact h
      · rw [he]
        exact ftcAux_append _ _ h _ rfl

theorem runSheet_ftc {α : Type} (tbl : String) (B : Nat)
    (tr : PdTimestamp → Row → Except String α) (st0 : SheetState α) (rows : List Row)
    (h0 : flushThenCommit st0.events = true) :
    flushThenCommit (runSheet tbl B tr st0 rows).1.events = true := by
  rcases hf : sheetFold tbl B tr rows st0 with ⟨st1, err⟩
  have h1 : flushThenCommit st1.events = true := by
    have h2 := sheetFold_ftc tbl B tr rows st0 h0
    rw [hf] at h2
    exact h2
  cases err with
  | some e =>
    rw [runSheet_eq_of_fold_err tbl B tr st0 rows st1 e hf]
    exact h1
  | none =>
    rw [runSheet_eq_of_fold tbl B tr st0 rows st1 hf]
    by_cases hemp : st1.data.isEmpty
    · rw [if_pos hemp]
      exact h1
    · rw [if_neg hemp]
      exact ftcAux_append _ _ h1 _ rfl

/-! ### Transaction semantics of a trace -/

theorem applyTrace_cons (s : TxnState) (e : DbEvent) (es : List DbEvent) :
    applyTrace s (e :: es) = applyTrace (applyEvent s e) es := rfl

theorem applyTrace_append (s : TxnState) (es1 es2 : List DbEvent) :
    applyTrace s (es1 ++ es2) = applyTrace (applyTrace s es1) es2 := by
  simp [applyTrace, List.foldl_append]

theorem applyTrace_ftcAux : ∀ (es : List DbEvent) (b : Bool) (s : TxnState),
    ftcAux b es = true → (b = false → s.pending = []) →
    applyTrace s es = ⟨s.committed ++ s.pending ++ es.filter isInsert, []⟩ := by
  intro es
  induction es with
  | nil =>
    intro b s hb hp
    cases b with
    | true => simp [ftcAux] at hb
    | false =>
      obtain ⟨cs, ps⟩ := s
      have hps : ps = [] := hp rfl
      subst hps
      simp [applyTrace]
  | cons e es ih =>
    intro b s hb hp
    rw [applyTrace_cons]
    cases b with
    | true =>
      cases e with
      | commit =>
        have hb' : ftcAux false es = true := hb
        rw [show applyEvent s DbEvent.commit = ⟨s.committed ++ s.pending, []⟩ from rfl]
        rw [ih false ⟨s.committed ++ s.pending, []⟩ hb' (fun _ => rfl)]
        simp [isInsert, List.filter_cons, List.append_assoc]
      | connect => simp [ftcAux] at hb
      | select t => simp [ftcAux] at hb
      | insertBatch t n => simp [ftcAux] at hb
      | rollback => simp [ftcAux] at hb
      | close => simp [ftcAux] at hb
    | false =>
      have hps : s.pending = [] := hp rfl
      cases e with
      | insertBatch t n =>
        have hb' : ftcAux true es = true := hb
        rw [show applyEvent s (DbEvent.insertBatch t n)
            = ⟨s.committed, s.pending ++ [DbEvent.insertBatch t n]⟩ from rfl]
        rw [ih true ⟨s.committed, s.pending ++ [DbEvent.insertBatch t n]⟩ hb'
          (fun hc => absurd hc (by simp))]
        simp [isInsert, List.filter_cons, hps, List.append_assoc]
      | commit =>
        have hb' : ftcAux false es = true := hb
        rw [show applyEvent s DbEvent.commit = ⟨s.committed ++ s.pending, []⟩ from rfl]
        rw [ih false ⟨s.committed ++ s.pending, []⟩ hb' (fun _ => rfl)]
        simp [isInsert, List.filter_cons, hps, List.append_assoc]
      | rollback =>
        have hb' : ftcAux false es = true := hb
        rw [show applyEvent s DbEvent.rollback = ⟨s.committed, []⟩ from rfl]
        rw [ih false ⟨s.committed, []⟩ hb' (fun _ => rfl)]
        simp [isInsert, List.filter_cons, hps]
      | connect =>
        have hb' : ftcAux false es = true := hb
        rw [show applyEvent s DbEvent.connect = s from rfl]
        rw [ih false s hb' (fun _ => hps)]
        simp [isInsert, List.filter_cons]
      | select t =>
        have hb' : ftcAux false es = true := hb
        rw [show applyEvent s (DbEvent.select t) = s from rfl]
        rw [ih false s hb' (fun _ => hps)]
        simp [isInsert, List.filter_cons]
      | close =>
        have hb' : ftcAux false es = true := hb
        rw [show applyEvent s DbEvent.close = s from rfl]
        rw [ih false s hb' (fun _ => hps)]
        simp [isInsert, List.filter_cons]

theorem applyTrace_flushThenCommit (es : List DbEvent) (s : TxnState)
    (hes : flushThenCommit es = true) (hp : s.pending = []) :
    applyTrace s (es ++ [DbEvent.rollback])
      = ⟨s.committed ++ es.filter isInsert, []⟩ := by
  rw [applyTrace_append, applyTrace_ftcAux es false s hes (fun _ => hp)]
  rw [show applyTrace ⟨s.committed ++ s.pending ++ es.filter isInsert, []⟩ [DbEvent.rollback]
      = ⟨s.committed ++ s.pending ++ es.filter isInsert, []⟩ from rfl]
  rw [hp]
  simp

/-! ### The verifier -/

theorem runCounts_selects (db : Db) :
    ∀ ts : List String, ∀ e ∈ (runCounts db ts).1, isSelect e = true := by
  intro ts
  induction ts with
  | nil => intro e he; simp [runCounts] at he
  | cons t ts ih =>
    intro e he
    by_cases h : db.countOk t = true
    · simp only [runCounts, h, if_true] at he
      rcases List.mem_cons.mp he with rfl | he
      · rfl
      · exact ih e he
    · simp only [runCounts, h, if_false] at he
      simp at he

theorem runCounts_all_ok (db : Db) :
    ∀ ts : List String, (∀ t ∈ ts, db.countOk t = true) →
      runCounts db ts = (ts.map DbEvent.select, true) := by
  intro ts
  induction ts with
  | nil => intro _; rfl
  | cons t ts ih =>
    intro h
    have ht : db.countOk t = true := h t (List.mem_cons_self t ts)
    have hts : ∀ x ∈ ts, db.countOk x = true := fun x hx => h x (List.mem_cons_of_mem t hx)
    simp only [runCounts, ht, if_true, ih hts, List.map_cons]

theorem applyEvent_of_read (s : TxnState) (e : DbEvent)
    (h : isSelect e = true ∨ e = DbEvent.connect ∨ e = DbEvent.close) :
    applyEvent s e = s := by
  cases e with
  | connect => rfl
  | select t => rfl
  | close => rfl
  | insertBatch t n => simp [isSelect] at h
  | commit => simp [isSelect] at h
  | rollback => simp [isSelect] at h

theorem applyTrace_of_reads : ∀ (es : List DbEvent) (s : TxnState),
    (∀ e ∈ es, isSelect e = true ∨ e = DbEvent.connect ∨ e = DbEvent.close) →
    applyTrace s es = s := by
  intro es
  induction es with
  | nil => intro s _; rfl
  | cons e es ih =>
    intro s h
    rw [applyTrace_cons, applyEvent_of_read s e (h e (List.mem_cons_self e es))]
    exact ih s (fun x hx => h x (List.mem_cons_of_mem e hx))

/-! ### The sensor mapping and the dispatcher -/

theorem lookup_mem {β : Type} : ∀ (l : List (String × β)) (a : String) (b : β),
    List.lookup a l = some b → ∃ k, (k, b) ∈ l := by
  intro l
  induction l with
  | nil => intro a b h; simp [List.lookup] at h
  | cons kv l ih =>
    intro a b h
    obtain ⟨k, v⟩ := kv
    rw [show List.lookup a ((k, v) :: l) = match a == k with
        | true => some v | false => List.lookup a l from rfl] at h
    cases hbeq : a == k with
    | true =>
      simp only [hbeq] at h
      obtain rfl : v = b := Option.some.inj h
      exact ⟨k, List.mem_cons_self _ _⟩
    | false =>
      simp only [hbeq] at h
      obtain ⟨k', hk⟩ := ih a b h
      exact ⟨k', List.mem_cons_of_mem _ hk⟩

theorem mapping_snd {name : String} {info : String × String}
    (h : SENSOR_MAPPING.lookup name = some info) :
    info.2 = "current" ∨ info.2 = "environmental" ∨ info.2 = "temperature" := by
  obtain ⟨k, hmem⟩ := lookup_mem SENSOR_MAPPING name info h
  have htypes : ∀ p ∈ SENSOR_MAPPING,
      p.2.2 = "current" ∨ p.2.2 = "environmental" ∨ p.2.2 = "temperature" := by decide
  exact htypes (k, info) hmem

theorem processSheet_unknown (db : Db) (B : Nat) (name : String) (rows : List Row)
    (h : SENSOR_MAPPING.lookup name = none) :
    processSheet db B name rows = ([], 0, none) := by
  unfold processSheet
  rw [h]

theorem importSheets_cons (db : Db) (B : Nat) (sheet : String × List Row)
    (rest : List (String × List Row)) :
    importSheets db B (sheet :: rest) =
      match (processSheet db B sheet.1 sheet.2).2.2 with
      | some e => ((processSheet db B sheet.1 sheet.2).1,
                   (processSheet db B sheet.1 sheet.2).2.1, some e)
      | none => ((processSheet db B sheet.1 sheet.2).1 ++ (importSheets db B rest).1,
                 (processSheet db B sheet.1 sheet.2).2.1 + (importSheets db B rest).2.1,
                 (importSheets db B rest).2.2) := rfl

theorem importSheets_skip_unknown (db : Db) (B : Nat) (name : String) (rows : List Row)
    (hname : SENSOR_MAPPING.lookup name = none) :
    ∀ pre post, importSheets db B (pre ++ (name, rows) :: post)
      = importSheets db B (pre ++ post) := by
  have hp : processSheet db B name rows = ([], 0, none) :=
    processSheet_unknown db B name rows hname
  intro pre
  induction pre with
  | nil =>
    intro post
    simp only [List.nil_append, importSheets_cons, hp]
    simp
  | cons s pre ih =>
    intro post
    simp only [List.cons_append, importSheets_cons]
    cases hps : (processSheet db B s.1 s.2).2.2 with
    | some e => rfl
    | none => rw [ih post]

theorem importSheets_prefix_err (db : Db) (B : Nat) (name : String) (rows : List Row)
    (rest : List (String × List Row)) (e : String)
    (hhd : (processSheet db B name rows).2.2 = some e) :
    ∀ pre, (importSheets db B pre).2.2 = none →
      (importSheets db B (pre ++ (name, rows) :: rest)).1
          = (importSheets db B pre).1 ++ (processSheet db B name rows).1
        ∧ (importSheets db B (pre ++ (name, rows) :: rest)).2.2 = some e := by
  intro pre
  induction pre with
  | nil =>
    intro _
    have h1 : importSheets db B ((name, rows) :: rest)
        = ((processSheet db B name rows).1, (processSheet db B name rows).2.1, some e) := by
      rw [importSheets_cons]
      simp only [hhd]
    rw [List.nil_append, h1]
    exact ⟨by simp [importSheets], rfl⟩
  | cons s pre ih =>
    intro hok
    rw [importSheets_cons] at hok
    simp only [List.cons_append, importSheets_cons]
    cases hps : (processSheet db B s.1 s.2).2.2 with
    | some e' =>
      rw [hps] at hok
      simp at hok
    | none =>
      rw [hps] at hok
      obtain ⟨h1, h2⟩ := ih hok
      constructor
      · simp only [h1, List.append_assoc]
      · exact h2

/-! ### Resolving the sensor id inside the importers -/

theorem import_current_eq (db : Db) (B : Nat) (rows : List Row) (code : String) (sid : Nat)
    (hsid : db.sensors.lookup code = some sid) :
    import_current_sensor db B rows code
      = runSheet CURRENT_TABLE B (transformCurrent sid)
          ⟨[DbEvent.select SENSORS_TABLE], [], [], 0⟩ rows := by
  unfold import_current_sensor get_sensor_id
  rw [hsid]

theorem import_environmental_eq (db : Db) (B : Nat) (rows : List Row) (code : String)
    (sid : Nat) (hsid : db.sensors.lookup code = some sid) :
    import_environmental_sensor db B rows code
      = runSheet ENVIRONMENTAL_TABLE B (transformEnvironmental sid)
          ⟨[DbEvent.select SENSORS_TABLE], [], [], 0⟩ rows := by
  unfold import_environmental_sensor get_sensor_id
  rw [hsid]

theorem import_temperature_eq (db : Db) (B : Nat) (rows : List Row) (code : String)
    (sid : Nat) (hsid : db.sensors.lookup code = some sid) :
    import_temperature_sensor db B rows code
      = runSheet TEMPERATURE_TABLE B (transformTemperature sid)
          ⟨[DbEvent.select SENSORS_TABLE], [], [], 0⟩ rows := by
  unfold import_temperature_sensor get_sensor_id
  rw [hsid]

theorem import_current_notfound (db : Db) (B : Nat) (rows : List Row) (code : String)
    (h : db.sensors.lookup code = none) :
    import_current_sensor db B rows code
      = (⟨[DbEvent.select SENSORS_TABLE], [], [], 0⟩,
         some ("Sensor " ++ code ++ " not found in database")) := by
  unfold import_current_sensor get_sensor_id
  rw [h]

theorem import_environmental_notfound (db : Db) (B : Nat) (rows : List Row) (code : String)
    (h : db.sensors.lookup code = none) :
    import_environmental_sensor db B rows code
      = (⟨[DbEvent.select SENSORS_TABLE], [], [], 0⟩,
         some ("Sensor " ++ code ++ " not found in database")) := by
  unfold import_environmental_sensor get_sensor_id
  rw [h]

theorem import_temperature_notfound (db : Db) (B : Nat) (rows : List Row) (code : String)
    (h : db.sensors.lookup code = none) :
    import_temperature_sensor db B rows code
      = (⟨[DbEvent.select SENSORS_TABLE], [], [], 0⟩,
         some ("Sensor " ++ code ++ " not found in database")) := by
  unfold import_temperature_sensor get_sensor_id
  rw [h]

/-! ### Counting over replicated rows -/

theorem countP_replicate {α : Type} (p : α → Bool) (n : Nat) (a : α) :
    (List.replicate n a).countP p = if p a then n else 0 := by
  induction n with
  | zero => simp
  | succ n ih =>
    rw [List.replicate_succ, List.countP_cons, ih]
    by_cases h : p a <;> simp [h]

/-! ### Claim theorems -/

/-- C1: for every sheet import with batch size B ≥ 1 whose reached rows all
transform without a fatal error, a flush (bulk insert + commit) fires exactly
each time the buffer reaches B rows, plus exactly one final flush when a
non-empty remainder exists: with P rows carrying parseable timestamps the
flush sizes are P / B full batches of B rows followed by a final batch of
P % B rows when P % B ≠ 0, and the total number of flushes is
ceil(P / B) = (P + B - 1) / B.  Stated for all three sheet importers. -/
theorem flush_batching_schedule :
    (∀ (db : Db) (B : Nat) (rows : List Row) (code : String) (sid : Nat),
      1 ≤ B → db.sensors.lookup code = some sid →
      (∀ r ∈ rows, stepClass (transformCurrent sid) r ≠ none) →
      ∃ st, import_current_sensor db B rows code = (st, none)
        ∧ st.flushes.map List.length
            = List.replicate (goodCount (transformCurrent sid) rows / B) B
              ++ (if goodCount (transformCurrent sid) rows % B = 0 then []
                  else [goodCount (transformCurrent sid) rows % B])
        ∧ st.flushes.length = (goodCount (transformCurrent sid) rows + B - 1) / B
        ∧ st.skipped = skipCount (transformCurrent sid) rows)
    ∧ (∀ (db : Db) (B : Nat) (rows : List Row) (code : String) (sid : Nat),
      1 ≤ B → db.sensors.lookup code = some sid →
      (∀ r ∈ rows, stepClass (transformEnvironmental sid) r ≠ none) →
      ∃ st, import_environmental_sensor db B rows code = (st, none)
        ∧ st.flushes.map List.length
            = List.replicate (goodCount (transformEnvironmental sid) rows / B) B
              ++ (if goodCount (transformEnvironmental sid) rows % B = 0 then []
                  else [goodCount (transformEnvironmental sid) rows % B])
        ∧ st.flushes.length = (goodCount (transformEnvironmental sid) rows + B - 1) / B
        ∧ st.skipped = skipCount (transformEnvironmental sid) rows)
    ∧ (∀ (db : Db) (B : Nat) (rows : List Row) (code : String) (sid : Nat),
      1 ≤ B → db.sensors.lookup code = some sid →
      (∀ r ∈ rows, stepClass (transformTemperature sid) r ≠ none) →
      ∃ st, import_temperature_sensor db B rows code = (st, none)
        ∧ st.flushes.map List.length
            = List.replicate (goodCount (transformTemperature sid) rows / B) B
              ++ (if goodCount (transformTemperature sid) rows % B = 0 then []
                  else [goodCount (transformTemperature sid) rows % B])
        ∧ st.flushes.length = (goodCount (transformTemperature sid) rows + B - 1) / B
        ∧ st.skipped = skipCount (transformTemperature sid) rows) := by
  refine ⟨?_, ?_, ?_⟩
  · intro db B rows code sid hB hsid hok
    rw [import_current_eq db B rows code sid hsid]
    obtain ⟨st, h1, h2, h3, h4, h5⟩ :=
      runSheet_schedule CURRENT_TABLE B (transformCurrent sid)
        ⟨[DbEvent.select SENSORS_TABLE], [], [], 0⟩ rows hB rfl rfl hok
    exact ⟨st, h1, h2, h3, by simpa using h4⟩
  · intro db B rows code sid hB hsid hok
    rw [import_environmental_eq db B rows code sid hsid]
    obtain ⟨st, h1, h2, h3, h4, h5⟩ :=
      runSheet_schedule ENVIRONMENTAL_TABLE B (transformEnvironmental sid)
        ⟨[DbEvent.select SENSORS_TABLE], [], [], 0⟩ rows hB rfl rfl hok
    exact ⟨st, h1, h2, h3, by simpa using h4⟩
  · intro db B rows code sid hB hsid hok
    rw [import_temperature_eq db B rows code sid hsid]
    obtain ⟨st, h1, h2, h3, h4, h5⟩ :=
      runSheet_schedule TEMPERATURE_TABLE B (transformTemperature sid)
        ⟨[DbEvent.select SENSORS_TABLE], [], [], 0⟩ rows hB rfl rfl hok
    exact ⟨st, h1, h2, h3, by simpa using h4⟩

/-- C1 witness: the spec scenario — a temperature sheet of 2500 rows with
batch size 1000 yields exactly 3 flushes of sizes 1000, 1000, 500 and no
skipped rows. -/
theorem flush_batching_schedule_witness :
    ∃ st, import_temperature_sensor T1_DB 1000 (List.replicate 2500 T1_ROW) "t1" = (st, none)
      ∧ st.flushes.map List.length = [1000, 1000, 500]
      ∧ st.flushes.length = 3
      ∧ st.skipped = 0 := by
  obtain ⟨st, h1, h2, h3, h4⟩ :=
    flush_batching_schedule.2.2 T1_DB 1000 (List.replicate 2500 T1_ROW) "t1" 7
      (by decide)
      (by decide)
      (by
        intro r hr
        obtain rfl := List.eq_of_mem_replicate hr
        decide)
  have hg : goodCount (transformTemperature 7) (List.replicate 2500 T1_ROW) = 2500 := by
    rw [goodCount, countP_replicate,
      if_pos (show rowGood (transformTemperature 7) T1_ROW = true by decide)]
  have hs : skipCount (transformTemperature 7) (List.replicate 2500 T1_ROW) = 0 := by
    rw [skipCount, countP_replicate,
      if_neg (show ¬ rowSkip (transformTemperature 7) T1_ROW = true by decide)]
  rw [hg] at h2 h3
  rw [hs] at h4
  refine ⟨st, h1, ?_, ?_, h4⟩
  · rw [h2]
    norm_num
    decide
  · rw [h3]

/-- C9: with batch size B ≥ 1 the batch buffer is invariant-bounded: from any
in-bound state, after processing any sequence of rows the buffer holds
strictly fewer than B rows and every in-loop flush handed to the database
holds exactly B rows; in a whole-sheet run every flush except possibly the
last (the sheet-end remainder) inserts exactly B rows. -/
theorem buffer_bound_invariant {α : Type} (tbl : String) (B : Nat)
    (tr : PdTimestamp → Row → Except String α) (hB : 1 ≤ B) :
    (∀ (rows : List Row) (st0 : SheetState α),
       st0.data.length < B → (∀ l ∈ st0.flushes, l.length = B) →
       (sheetFold tbl B tr rows st0).1.data.length < B
         ∧ ∀ l ∈ (sheetFold tbl B tr rows st0).1.flushes, l.length = B)
    ∧ (∀ (rows : List Row) (st0 : SheetState α),
       st0.data.length < B → (∀ l ∈ st0.flushes, l.length = B) →
       ∀ l ∈ (runSheet tbl B tr st0 rows).1.flushes.dropLast, l.length = B) := by
  constructor
  · intro rows st0 hd hf
    exact sheetFold_inv tbl B tr hB rows st0 hd hf
  · intro rows st0 hd hf l hl
    rcases hfold : sheetFold tbl B tr rows st0 with ⟨st1, err⟩
    have hinv := sheetFold_inv tbl B tr hB rows st0 hd hf
    rw [hfold] at hinv
    cases err with
    | some e =>
      rw [runSheet_eq_of_fold_err tbl B tr st0 rows st1 e hfold] at hl
      exact hinv.2 l (List.dropLast_subset _ hl)
    | none =>
      rw [runSheet_eq_of_fold tbl B tr st0 rows st1 hfold] at hl
      by_cases hemp : st1.data.isEmpty
      · rw [if_pos hemp] at hl
        exact hinv.2 l (List.dropLast_subset _ hl)
      · rw [if_neg hemp] at hl
        simp only [List.dropLast_concat] at hl
        exact hinv.2 l hl

/-- C9 witness: concrete instance of the buffer invariant on a three-row
temperature sheet with batch size 2. -/
theorem buffer_bound_invariant_witness :
    ((sheetFold TEMPERATURE_TABLE 2 (transformTemperature 7) [T1_ROW, T1_ROW, T1_ROW]
        ⟨[], [], [], 0⟩).1.data.length < 2
      ∧ ∀ l ∈ (sheetFold TEMPERATURE_TABLE 2 (transformTemperature 7) [T1_ROW, T1_ROW, T1_ROW]
        ⟨[], [], [], 0⟩).1.flushes, l.length = 2)
    ∧ ∀ l ∈ (runSheet TEMPERATURE_TABLE 2 (transformTemperature 7)
        ⟨[], [], [], 0⟩ [T1_ROW, T1_ROW, T1_ROW]).1.flushes.dropLast, l.length = 2 := by
  constructor
  · exact (buffer_bound_invariant TEMPERATURE_TABLE 2 (transformTemperature 7) (by decide)).1
      [T1_ROW, T1_ROW, T1_ROW] ⟨[], [], [], 0⟩ (by decide)
      (by intro l hl; simp at hl)
  · exact (buffer_bound_invariant TEMPERATURE_TABLE 2 (transformTemperature 7) (by decide)).2
      [T1_ROW, T1_ROW, T1_ROW] ⟨[], [], [], 0⟩ (by decide)
      (by intro l hl; simp at hl)

/-- C2: a row whose timestamp cell cannot be parsed is excluded from the
batch with buffer, flushes and events untouched, the skip counter increments
by exactly one, the failure is not fatal, and deleting such a row from the
sheet leaves the processing of every other row unchanged (up to the skip
counter); moreover any fatal row-level error comes from the tuple
construction (column access or numeric cast), never from the timestamp
parse — the unparseable timestamp is the only tolerated row failure. -/
theorem timestamp_skip_policy {α : Type} (tbl : String) (B : Nat)
    (tr : PdTimestamp → Row → Except String α) (r : Row) (c : Cell)
    (hc : getCol r COL_FECHA = Except.ok c) (hbad : parse_timestamp c = none) :
    (∀ st : SheetState α, sheetStep tbl B tr st r = Except.ok (bumpSkip st))
    ∧ (∀ (xs ys : List Row) (st0 : SheetState α),
        (sheetFold tbl B tr xs st0).2 = none →
        sheetFold tbl B tr (xs ++ r :: ys) st0
          = (bumpSkip (sheetFold tbl B tr (xs ++ ys) st0).1,
             (sheetFold tbl B tr (xs ++ ys) st0).2))
    ∧ (∀ (st : SheetState α) (r2 : Row) (c2 : Cell) (e : String),
        getCol r2 COL_FECHA = Except.ok c2 →
        sheetStep tbl B tr st r2 = Except.error e →
        ∃ ts, parse_timestamp c2 = some ts ∧ tr ts r2 = Except.error e) := by
  have hskip : stepClass tr r = some none := by
    unfold stepClass
    simp only [hc, hbad]
  have hstep : ∀ st : SheetState α, sheetStep tbl B tr st r = Except.ok (bumpSkip st) :=
    fun st => sheetStep_of_skip tbl B tr st r hskip
  refine ⟨hstep, ?_, ?_⟩
  · intro xs ys st0 hxs
    rcases hf : sheetFold tbl B tr xs st0 with ⟨st1, err⟩
    rw [hf] at hxs
    cases err with
    | some e => simp at hxs
    | none =>
      have hL : sheetFold tbl B tr (xs ++ r :: ys) st0
          = sheetFold tbl B tr (r :: ys) st1 := by
        rw [sheetFold_append, hf]
      have hR : sheetFold tbl B tr (xs ++ ys) st0 = sheetFold tbl B tr ys st1 := by
        rw [sheetFold_append, hf]
      rw [hL, hR, sheetFold_cons, hstep st1]
      show sheetFold tbl B tr ys (bumpSkip st1)
        = (bumpSkip (sheetFold tbl B tr ys st1).1, (sheetFold tbl B tr ys st1).2)
      rw [sheetFold_bumpSkip]
  · intro st r2 c2 e hc2 hstep2
    unfold sheetStep at hstep2
    simp only [hc2] at hstep2
    cases hp : parse_timestamp c2 with
    | none =>
      simp only [hp] at hstep2
      exact Except.noConfusion hstep2
    | some ts =>
      simp only [hp] at hstep2
      cases htr : tr ts r2 with
      | error e' =>
        simp only [htr, Except.error.injEq] at hstep2
        subst hstep2
        exact ⟨ts, rfl, htr⟩
      | ok rd =>
        simp only [htr] at hstep2
        exact Except.noConfusion hstep2

/-- C2 witness: a concrete unparseable-timestamp row is skipped (state only
gains one on the skip counter), and removing it from a two-row sheet does not
change how the remaining good row is processed. -/
theorem timestamp_skip_policy_witness :
    sheetStep TEMPERATURE_TABLE 1000 (transformTemperature 7) ⟨[], [], [], 0⟩ BAD_TS_ROW
      = Except.ok (bumpSkip ⟨[], [], [], 0⟩)
    ∧ sheetFold TEMPERATURE_TABLE 1000 (transformTemperature 7)
        ([] ++ BAD_TS_ROW :: [T1_ROW]) ⟨[], [], [], 0⟩
      = (bumpSkip (sheetFold TEMPERATURE_TABLE 1000 (transformTemperature 7)
            ([] ++ [T1_ROW]) ⟨[], [], [], 0⟩).1,
         (sheetFold TEMPERATURE_TABLE 1000 (transformTemperature 7)
            ([] ++ [T1_ROW]) ⟨[], [], [], 0⟩).2) := by
  obtain ⟨h1, h2, h3⟩ := timestamp_skip_policy TEMPERATURE_TABLE 1000 (transformTemperature 7)
    BAD_TS_ROW (Cell.txt none none) rfl rfl
  exact ⟨h1 ⟨[], [], [], 0⟩, h2 [] [T1_ROW] ⟨[], [], [], 0⟩ rfl⟩

theorem except_bind_ok {γ δ : Type} (x : γ) (g : γ → Except String δ) :
    (Except.ok x >>= g : Except String δ) = g x := rfl

theorem except_bind_error {γ δ : Type} (msg : String) (g : γ → Except String δ) :
    (Except.error msg >>= g : Except String δ) = Except.error msg := rfl

/-- C10: an absent (NaN) timestamp cell does not get the row skipped:
`parse_timestamp` returns the skip marker `none` only when parsing raises,
and an empty cell parses without exception to NaT, which is distinct from
that marker — so the row passes the skip check, its tuple is appended to the
batch (the skip counter unchanged), and for the temperature transformer the
appended tuple indeed carries NaT as its time. -/
theorem empty_timestamp_not_skipped :
    (parse_timestamp Cell.na = some PdTimestamp.NaT ∧ parse_timestamp Cell.na ≠ none)
    ∧ (∀ {α : Type} (tbl : String) (B : Nat) (tr : PdTimestamp → Row → Except String α)
        (st : SheetState α) (r : Row) (rd : α),
        getCol r COL_FECHA = Except.ok Cell.na →
        tr PdTimestamp.NaT r = Except.ok rd →
        sheetStep tbl B tr st r = Except.ok (pushRow tbl B st rd)
          ∧ (pushRow tbl B st rd).skipped = st.skipped
          ∧ allRows (pushRow tbl B st rd) = allRows st ++ [rd])
    ∧ (∀ (sid : Nat) (r : Row) (rd : TemperatureReading),
        transformTemperature sid PdTimestamp.NaT r = Except.ok rd →
        rd.time = PdTimestamp.NaT) := by
  refine ⟨⟨rfl, by simp [parse_timestamp, pd_to_datetime]⟩, ?_, ?_⟩
  · intro α tbl B tr st r rd hc htr
    have hclass : stepClass tr r = some (some rd) := by
      unfold stepClass
      simp only [hc, show parse_timestamp Cell.na = some PdTimestamp.NaT from rfl, htr]
    refine ⟨sheetStep_of_good tbl B tr st r rd hclass, ?_, ?_⟩
    · simp only [pushRow]
      split <;> rfl
    · simp only [pushRow]
      split
      · simp [allRows, List.flatten_append, List.append_assoc]
      · simp [allRows, List.append_assoc]
  · intro sid r rd h
    unfold transformTemperature at h
    cases h1 : colInt r COL_HUMEDAD with
    | error e => rw [h1, except_bind_error] at h; cases h
    | ok hum =>
      rw [h1, except_bind_ok] at h
      cases h2 : colFloat r COL_TEMPERATURA with
      | error e => rw [h2, except_bind_error] at h; cases h
      | ok temp =>
        rw [h2, except_bind_ok] at h
        cases h3 : colInt r COL_TENSION with
        | error e => rw [h3, except_bind_error] at h; cases h
        | ok batt =>
          rw [h3, except_bind_ok] at h
          obtain rfl := Except.ok.inj h
          rfl

/-- C10 witness: a concrete temperature row with an empty timestamp cell is
appended to the batch with time NaT and the skip counter stays at zero. -/
theorem empty_timestamp_not_skipped_witness :
    sheetStep TEMPERATURE_TABLE 1000 (transformTemperature 7) ⟨[], [], [], 0⟩ NA_TS_ROW
      = Except.ok (pushRow TEMPERATURE_TABLE 1000 ⟨[], [], [], 0⟩
          ⟨PdTimestamp.NaT, 7, some 50, some 21, some 3600⟩)
    ∧ (pushRow TEMPERATURE_TABLE 1000 (⟨[], [], [], 0⟩ : SheetState TemperatureReading)
        ⟨PdTimestamp.NaT, 7, some 50, some 21, some 3600⟩).skipped = 0
    ∧ (⟨PdTimestamp.NaT, 7, some 50, some 21, some 3600⟩ : TemperatureReading).time
        = PdTimestamp.NaT := by
  obtain ⟨hs, hk, -⟩ := empty_timestamp_not_skipped.2.1 TEMPERATURE_TABLE 1000
    (transformTemperature 7) ⟨[], [], [], 0⟩ NA_TS_ROW
    ⟨PdTimestamp.NaT, 7, some 50, some 21, some 3600⟩ rfl rfl
  exact ⟨hs, hk, empty_timestamp_not_skipped.2.2 7 NA_TS_ROW _ rfl⟩

/-- C3: per measurement field, an absent (NaN) cell yields an explicit
`none` — never zero and never an error; a numeric cell is cast to the
declared type (float as-is, int with truncation toward zero); a non-numeric
text cell makes the cast raise, and that error is caught nowhere: a
recognized sheet containing such a cell aborts the whole run with a rollback
and exit status 1. -/
theorem numeric_cast_policy :
    (floatOpt Cell.na = Except.ok none ∧ intOpt Cell.na = Except.ok none)
    ∧ (∀ q : Rat, floatOpt (Cell.num q) = Except.ok (some q)
        ∧ intOpt (Cell.num q) = Except.ok (some (truncRat q)))
    ∧ (∀ tv : Option Rat, (∃ e, floatOpt (Cell.txt tv none) = Except.error e)
        ∧ (∃ e, intOpt (Cell.txt tv none) = Except.error e))
    ∧ (∀ (db : Db) (B : Nat) (tv : Option Rat) (sid : Nat),
        db.connOk = true → db.sensors.lookup "t1" = some sid →
        main_run ⟨false, B⟩ true [("Sensor t1", [badCastRow tv])] db
          = ([DbEvent.connect, DbEvent.select SENSORS_TABLE,
              DbEvent.rollback, DbEvent.close], 1)) := by
  refine ⟨⟨rfl, rfl⟩, fun q => ⟨rfl, rfl⟩, fun tv => ⟨⟨_, rfl⟩, ⟨_, rfl⟩⟩, ?_⟩
  intro db B tv sid hconn hsid
  have hstep : sheetStep TEMPERATURE_TABLE B (transformTemperature sid)
      ⟨[DbEvent.select SENSORS_TABLE], [], [], 0⟩ (badCastRow tv)
      = Except.error "ValueError: invalid literal for int" := rfl
  have hfold : sheetFold TEMPERATURE_TABLE B (transformTemperature sid) [badCastRow tv]
      ⟨[DbEvent.select SENSORS_TABLE], [], [], 0⟩
      = (⟨[DbEvent.select SENSORS_TABLE], [], [], 0⟩,
         some "ValueError: invalid literal for int") := by
    rw [sheetFold_cons, hstep]
  have himp : import_temperature_sensor db B [badCastRow tv] "t1"
      = (⟨[DbEvent.select SENSORS_TABLE], [], [], 0⟩,
         some "ValueError: invalid literal for int") := by
    rw [import_temperature_eq db B [badCastRow tv] "t1" sid hsid]
    exact runSheet_eq_of_fold_err _ _ _ _ _ _ _ hfold
  have hps : processSheet db B "Sensor t1" [badCastRow tv]
      = ([DbEvent.select SENSORS_TABLE], 1, some "ValueError: invalid literal for int") := by
    unfold processSheet
    simp only [show SENSOR_MAPPING.lookup "Sensor t1" = some ("t1", "temperature") from rfl]
    rw [himp, if_neg (show ¬ ("temperature" : String) = "current" by decide),
      if_neg (show ¬ ("temperature" : String) = "environmental" by decide)]
    rfl
  have hia : import_all_data true [("Sensor t1", [badCastRow tv])] db B
      = ([DbEvent.connect, DbEvent.select SENSORS_TABLE,
          DbEvent.rollback, DbEvent.close], some 1) := by
    unfold import_all_data
    rw [if_pos rfl, if_pos hconn]
    simp only [importSheets_cons, hps]
    rfl
  unfold main_run
  rw [if_neg (show ¬ (Args.mk false B).verify_only = true by simp)]
  simp only [hia]

/-- C3 witness: `int` truncates 7/2 to 3, and a concrete run over a one-row
temperature sheet holding non-numeric text in a numeric column aborts with a
rollback and exit status 1. -/
theorem numeric_cast_policy_witness :
    intOpt (Cell.num (mkRat 7 2)) = Except.ok (some 3)
    ∧ main_run ⟨false, 1000⟩ true [("Sensor t1", [badCastRow none])] T1_DB
        = ([DbEvent.connect, DbEvent.select SENSORS_TABLE,
            DbEvent.rollback, DbEvent.close], 1) := by
  constructor
  · rw [(numeric_cast_policy.2.1 (mkRat 7 2)).2]
    rw [show truncRat (mkRat 7 2) = 3 by decide]
  · exact numeric_cast_policy.2.2.2 T1_DB 1000 none 7 rfl (by decide)

/-- C4: the recognized sheet names are exactly the 11 of `SENSOR_MAPPING`;
each recognized sheet is handed to exactly the importer registered for its
sensor type with its registered sensor code; an unrecognized sheet name is
skipped: it produces no events, contributes zero rows, never fails, and its
presence anywhere in the workbook leaves the rest of the import unchanged. -/
theorem sheet_dispatch :
    SENSOR_MAPPING.map Prod.fst
      = ["Sensor c1", "Sensor s1", "Sensor s2", "Sensor s3", "Sensor s4", "Sensor s5",
         "Sensor t1", "Sensor t2", "Sensor t3", "Sensor t4", "Sensor t5"]
    ∧ (∀ (db : Db) (B : Nat) (rows : List Row),
        processSheet db B "Sensor c1" rows
          = ((import_current_sensor db B rows "c1").1.events, rows.length,
             (import_current_sensor db B rows "c1").2)
        ∧ processSheet db B "Sensor s1" rows
          = ((import_environmental_sensor db B rows "s1").1.events, rows.length,
             (import_environmental_sensor db B rows "s1").2)
        ∧ processSheet db B "Sensor s2" rows
          = ((import_environmental_sensor db B rows "s2").1.events, rows.length,
             (import_environmental_sensor db B rows "s2").2)
        ∧ processSheet db B "Sensor s3" rows
          = ((import_environmental_sensor db B rows "s3").1.events, rows.length,
             (import_environmental_sensor db B rows "s3").2)
        ∧ processSheet db B "Sensor s4" rows
          = ((import_environmental_sensor db B rows "s4").1.events, rows.length,
             (import_environmental_sensor db B rows "s4").2)
        ∧ processSheet db B "Sensor s5" rows
          = ((import_environmental_sensor db B rows "s5").1.events, rows.length,
             (import_environmental_sensor db B rows "s5").2)
        ∧ processSheet db B "Sensor t1" rows
          = ((import_temperature_sensor db B rows "t1").1.events, rows.length,
             (import_temperature_sensor db B rows "t1").2)
        ∧ processSheet db B "Sensor t2" rows
          = ((import_temperature_sensor db B rows "t2").1.events, rows.length,
             (import_temperature_sensor db B rows "t2").2)
        ∧ processSheet db B "Sensor t3" rows
          = ((import_temperature_sensor db B rows "t3").1.events, rows.length,
             (import_temperature_sensor db B rows "t3").2)
        ∧ processSheet db B "Sensor t4" rows
          = ((import_temperature_sensor db B rows "t4").1.events, rows.length,
             (import_temperature_sensor db B rows "t4").2)
        ∧ processSheet db B "Sensor t5" rows
          = ((import_temperature_sensor db B rows "t5").1.events, rows.length,
             (import_temperature_sensor db B rows "t5").2))
    ∧ (∀ (db : Db) (B : Nat) (name : String) (rows : List Row),
        SENSOR_MAPPING.lookup name = none →
        processSheet db B name rows = ([], 0, none)
        ∧ ∀ pre post, importSheets db B (pre ++ (name, rows) :: post)
            = importSheets db B (pre ++ post)) := by
  refine ⟨rfl, ?_, ?_⟩
  · intro db B rows
    exact ⟨rfl, rfl, rfl, rfl, rfl, rfl, rfl, rfl, rfl, rfl, rfl⟩
  · intro db B name rows h
    exact ⟨processSheet_unknown db B name rows h, importSheets_skip_unknown db B name rows h⟩

/-- C4 witness: the spec scenario — the sheet name "Sensor unknown9" is
skipped with zero contribution and its presence changes nothing. -/
theorem sheet_dispatch_witness :
    processSheet T1_DB 1000 "Sensor unknown9" [T1_ROW] = ([], 0, none)
    ∧ importSheets T1_DB 1000 [("Sensor unknown9", [T1_ROW])]
        = importSheets T1_DB 1000 [] := by
  obtain ⟨h1, h2⟩ :=
    sheet_dispatch.2.2 T1_DB 1000 "Sensor unknown9" [T1_ROW] (by decide)
  refine ⟨h1, ?_⟩
  have h3 := h2 [] []
  simpa using h3

/-- C5: inside every sheet import — whatever the rows and whether or not it
fails — every bulk insert in the event trace is immediately followed by a
commit; consequently running any such trace from a state with no open
transaction and then applying the failure handler's rollback leaves exactly
the already-flushed batches committed: the rollback discards only the (empty)
open transaction, never a committed batch. -/
theorem flush_commit_persistence :
    (∀ (db : Db) (B : Nat) (rows : List Row) (code : String),
        flushThenCommit (import_current_sensor db B rows code).1.events = true
        ∧ flushThenCommit (import_environmental_sensor db B rows code).1.events = true
        ∧ flushThenCommit (import_temperature_sensor db B rows code).1.events = true)
    ∧ (∀ (es : List DbEvent) (s : TxnState),
        flushThenCommit es = true → s.pending = [] →
        applyTrace s (es ++ [DbEvent.rollback])
          = ⟨s.committed ++ es.filter isInsert, []⟩) := by
  constructor
  · intro db B rows code
    refine ⟨?_, ?_, ?_⟩
    · unfold import_current_sensor
      cases h : get_sensor_id db.sensors code with
      | error e => rfl
      | ok sid => exact runSheet_ftc _ _ _ _ _ rfl
    · unfold import_environmental_sensor
      cases h : get_sensor_id db.sensors code with
      | error e => rfl
      | ok sid => exact runSheet_ftc _ _ _ _ _ rfl
    · unfold import_temperature_sensor
      cases h : get_sensor_id db.sensors code with
      | error e => rfl
      | ok sid => exact runSheet_ftc _ _ _ _ _ rfl
  · exact applyTrace_flushThenCommit

/-- C5 witness: a concrete flushed-and-committed batch survives a subsequent
rollback. -/
theorem flush_commit_persistence_witness :
    applyTrace ⟨[], []⟩
      ([DbEvent.insertBatch TEMPERATURE_TABLE 2, DbEvent.commit] ++ [DbEvent.rollback])
      = ⟨[DbEvent.insertBatch TEMPERATURE_TABLE 2], []⟩ := by
  have h := flush_commit_persistence.2
    [DbEvent.insertBatch TEMPERATURE_TABLE 2, DbEvent.commit] ⟨[], []⟩ (by decide) rfl
  simpa [isInsert] using h

theorem processSheet_notfound (db : Db) (B : Nat) (name code stype : String) (rows : List Row)
    (hmap : SENSOR_MAPPING.lookup name = some (code, stype))
    (hcode : db.sensors.lookup code = none) :
    processSheet db B name rows
      = ([DbEvent.select SENSORS_TABLE], rows.length,
         some ("Sensor " ++ code ++ " not found in database")) := by
  have hsnd := mapping_snd hmap
  unfold processSheet
  simp only [hmap]
  rcases hsnd with h | h | h
  · rw [show ((code, stype) : String × String).2 = stype from rfl] at h
    subst h
    rw [if_pos rfl, import_current_notfound db B rows code hcode]
  · rw [show ((code, stype) : String × String).2 = stype from rfl] at h
    subst h
    rw [if_neg (by decide), if_pos rfl,
      import_environmental_notfound db B rows code hcode]
  · rw [show ((code, stype) : String × String).2 = stype from rfl] at h
    subst h
    rw [if_neg (by decide), if_neg (by decide), if_pos rfl,
      import_temperature_notfound db B rows code hcode]

/-- C6: a recognized sheet whose sensor code has no row in the registry makes
`get_sensor_id` raise a not-found error that propagates unhandled to the
driver and aborts the entire run, not just that sheet: whatever sheets follow
are never processed, the open transaction is rolled back, the connection
closed, and the process exits with status 1.  Exit status 1 is likewise
produced when the input file is missing or the database connection fails. -/
theorem fatal_abort_exit_one :
    (∀ (B : Nat) (wb : List (String × List Row)) (db : Db),
        main_run ⟨false, B⟩ false wb db = ([], 1))
    ∧ (∀ (B : Nat) (wb : List (String × List Row)) (db : Db),
        db.connOk = false → main_run ⟨false, B⟩ true wb db = ([], 1))
    ∧ (∀ (B : Nat) (name code stype : String) (rows : List Row)
        (rest : List (String × List Row)) (db : Db),
        db.connOk = true →
        SENSOR_MAPPING.lookup name = some (code, stype) →
        db.sensors.lookup code = none →
        main_run ⟨false, B⟩ true ((name, rows) :: rest) db
          = ([DbEvent.connect, DbEvent.select SENSORS_TABLE,
              DbEvent.rollback, DbEvent.close], 1)) := by
  refine ⟨?_, ?_, ?_⟩
  · intro B wb db
    have hia : import_all_data false wb db B = ([], some 1) := by
      unfold import_all_data
      rw [if_neg (by simp)]
    unfold main_run
    rw [if_neg (show ¬ (Args.mk false B).verify_only = true by simp)]
    simp only [hia]
  · intro B wb db hconn
    have hia : import_all_data true wb db B = ([], some 1) := by
      unfold import_all_data
      rw [if_pos rfl, if_neg (by simp [hconn])]
    unfold main_run
    rw [if_neg (show ¬ (Args.mk false B).verify_only = true by simp)]
    simp only [hia]
  · intro B name code stype rows rest db hconn hmap hcode
    have hps := processSheet_notfound db B name code stype rows hmap hcode
    have hia : import_all_data true ((name, rows) :: rest) db B
        = ([DbEvent.connect, DbEvent.select SENSORS_TABLE,
            DbEvent.rollback, DbEvent.close], some 1) := by
      unfold import_all_data
      rw [if_pos rfl, if_pos hconn]
      simp only [importSheets_cons, hps]
      rfl
    unfold main_run
    rw [if_neg (show ¬ (Args.mk false B).verify_only = true by simp)]
    simp only [hia]

/-- C6 witness: concrete instances — missing file, failed connection, and an
unregistered sensor code each exit with status 1, the last with a rollback
and no processing of the following sheet. -/
theorem fatal_abort_exit_one_witness :
    main_run ⟨false, 1000⟩ false [("Sensor t1", [T1_ROW])] T1_DB = ([], 1)
    ∧ main_run ⟨false, 1000⟩ true [] ⟨false, [], fun _ => true⟩ = ([], 1)
    ∧ main_run ⟨false, 1000⟩ true [("Sensor t2", [T1_ROW]), ("Sensor t1", [T1_ROW])] T1_DB
        = ([DbEvent.connect, DbEvent.select SENSORS_TABLE,
            DbEvent.rollback, DbEvent.close], 1) := by
  refine ⟨?_, ?_, ?_⟩
  · exact fatal_abort_exit_one.1 1000 [("Sensor t1", [T1_ROW])] T1_DB
  · exact fatal_abort_exit_one.2.1 1000 [] ⟨false, [], fun _ => true⟩ rfl
  · exact fatal_abort_exit_one.2.2 1000 "Sensor t2" "t2" "temperature" [T1_ROW]
      [("Sensor t1", [T1_ROW])] T1_DB rfl (by decide) (by decide)

/-- C7: a --verify-only run performs no import and issues no write: every
database event of the verification is a read-only SELECT, when all four COUNT
queries succeed the trace is exactly those four SELECTs in order, and
interpreting the trace of the whole verify-only run against any transaction
state returns that state unchanged — all four counted tables are untouched. -/
theorem verify_only_readonly :
    (∀ db : Db, ∀ e ∈ (verify_import db).1, isSelect e = true)
    ∧ (∀ db : Db, (∀ t ∈ COUNT_TABLES, db.countOk t = true) →
        verify_import db = (COUNT_TABLES.map DbEvent.select, true))
    ∧ (∀ (db : Db) (s : TxnState), applyTrace s (verify_import db).1 = s)
    ∧ (∀ (args : Args) (fileExists : Bool) (wb : List (String × List Row)) (db : Db)
        (s : TxnState), args.verify_only = true →
        applyTrace s (main_run args fileExists wb db).1 = s) := by
  have hsel : ∀ db : Db, ∀ e ∈ (verify_import db).1, isSelect e = true :=
    fun db => runCounts_selects db COUNT_TABLES
  have happ : ∀ (db : Db) (s : TxnState), applyTrace s (verify_import db).1 = s :=
    fun db s => applyTrace_of_reads _ s (fun e he => Or.inl (hsel db e he))
  refine ⟨hsel, fun db h => runCounts_all_ok db COUNT_TABLES h, happ, ?_⟩
  intro args fe wb db s hv
  unfold main_run
  rw [if_pos hv]
  by_cases hconn : db.connOk = true
  · rw [if_pos hconn]
    cases hv2 : (verify_import db).2 with
    | true =>
      simp only [hv2, if_true]
      rw [applyTrace_append,
        show ∀ s' : TxnState, applyTrace s' [DbEvent.close] = s' from fun s' => rfl,
        applyTrace_cons, show applyEvent s DbEvent.connect = s from rfl, happ db s]
    | false =>
      simp only [hv2, Bool.false_eq_true, if_false]
      rw [applyTrace_cons, show applyEvent s DbEvent.connect = s from rfl, happ db s]
  · rw [if_neg hconn]
    rfl

/-- C7 witness: with all counts succeeding the verify trace is exactly the
four SELECTs, and a verify-only run leaves a concrete transaction state with
one committed batch untouched. -/
theorem verify_only_readonly_witness :
    verify_import T1_DB
      = ([DbEvent.select SENSORS_TABLE, DbEvent.select CURRENT_TABLE,
          DbEvent.select ENVIRONMENTAL_TABLE, DbEvent.select TEMPERATURE_TABLE], true)
    ∧ applyTrace ⟨[DbEvent.insertBatch CURRENT_TABLE 5], []⟩
        (main_run ⟨true, 1000⟩ true [] T1_DB).1
      = ⟨[DbEvent.insertBatch CURRENT_TABLE 5], []⟩ := by
  constructor
  · have h := verify_only_readonly.2.1 T1_DB (by intro t ht; rfl)
    simpa [COUNT_TABLES] using h
  · exact verify_only_readonly.2.2.2 ⟨true, 1000⟩ true [] T1_DB
      ⟨[DbEvent.insertBatch CURRENT_TABLE 5], []⟩ rfl

/-- C8 counterexample: the claim that the connection is always closed in a
guaranteed-cleanup block fails on the verify-only path — there is no
try/finally there, so when a COUNT query raises, the run ends with exit
status 1 having opened the connection and never closed it. -/
theorem connection_close_cex :
    (main_run ⟨true, 1000⟩ true [] ⟨true, [], fun _ => false⟩).1 = [DbEvent.connect]
    ∧ DbEvent.close ∉ (main_run ⟨true, 1000⟩ true [] ⟨true, [], fun _ => false⟩).1
    ∧ (main_run ⟨true, 1000⟩ true [] ⟨true, [], fun _ => false⟩).2 = 1 := by
  refine ⟨rfl, ?_, rfl⟩
  rw [show (main_run ⟨true, 1000⟩ true [] ⟨true, [], fun _ => false⟩).1
      = [DbEvent.connect] from rfl]
  simp

/-- C8 (amended): the connection opened by `import_all_data` is closed on
every path, success or failure, by the `finally` block; the verify-only
path's connection is closed only when the verification queries all succeed —
its close is not in a cleanup block, and a failing COUNT query ends the run
without closing (see the counterexample). -/
theorem connection_close_amended :
    (∀ (wb : List (String × List Row)) (db : Db) (B : Nat), db.connOk = true →
        ∃ es, (import_all_data true wb db B).1 = DbEvent.connect :: es ++ [DbEvent.close])
    ∧ (∀ (args : Args) (fileExists : Bool) (wb : List (String × List Row)) (db : Db),
        args.verify_only = true → db.connOk = true →
        (∀ t ∈ COUNT_TABLES, db.countOk t = true) →
        (main_run args fileExists wb db).1
          = DbEvent.connect :: COUNT_TABLES.map DbEvent.select ++ [DbEvent.close]) := by
  constructor
  · intro wb db B hconn
    unfold import_all_data
    rw [if_pos rfl, if_pos hconn]
    cases herr : (importSheets db B wb).2.2 with
    | some e =>
      simp only [herr]
      exact ⟨(importSheets db B wb).1 ++ [DbEvent.rollback], by simp⟩
    | none =>
      simp only [herr]
      exact ⟨(importSheets db B wb).1, rfl⟩
  · intro args fe wb db hv hconn hcnt
    have hvi : verify_import db = (COUNT_TABLES.map DbEvent.select, true) :=
      runCounts_all_ok db COUNT_TABLES hcnt
    unfold main_run
    rw [if_pos hv, if_pos hconn]
    simp only [hvi, if_true]

/-- C8 (amended) witness: a failing import run still ends with a close, and a
fully successful verify-only run closes after the four SELECTs. -/
theorem connection_close_amended_witness :
    (∃ es, (import_all_data true [("Sensor t1", [T1_ROW])] ⟨true, [], fun _ => true⟩ 1000).1
      = DbEvent.connect :: es ++ [DbEvent.close])
    ∧ (main_run ⟨true, 1000⟩ true [] T1_DB).1
      = DbEvent.connect :: COUNT_TABLES.map DbEvent.select ++ [DbEvent.close] := by
  constructor
  · exact connection_close_amended.1 [("Sensor t1", [T1_ROW])] ⟨true, [], fun _ => true⟩ 1000 rfl
  · exact connection_close_amended.2 ⟨true, 1000⟩ true [] T1_DB rfl rfl (by intro t ht; rfl)

end MadisonImport
